import Mathlib

/-!
Verification of the `OpenAiFunctionBasedAnswerGenerator` orchestrator
(`backend/llm/OpenAiFunctionBasedAnswerGenerator/OpenAiFunctionBasedAnswerGenerator.py`).

The orchestrator's collaborators (the chat-completion client, the history
store `get_chat_history`, and the vector store's similarity search) live
outside the source under verification, so they are modelled as an
environment: a history list, a similarity-search function, and a response
oracle mapping each outgoing message list to the model's reply.  The
orchestrator itself (`_get_chat_history` flattening, `_construct_prompt`,
`get_answer`) is translated directly from the Python source, with an
explicit effect trace recording each model call (with the message list and
function specs sent), each history read, and each context read.
-/

namespace Quivr

/-- Message role, one of the three roles used by the source. -/
inductive Role where
  | system
  | user
  | assistant
deriving DecidableEq, Repr

/-- A chat message `{"role": ..., "content": ...}`. -/
structure Message where
  role : Role
  content : String
deriving DecidableEq, Repr

/-- The `function_call` part of a formatted model answer; only the name is
inspected by the source (arguments are never read). -/
structure FunctionCallInfo where
  name : String
deriving DecidableEq, Repr

/-- Modelled from the spec: `ModelResponse` / `OpenAiAnswer` (the
`models/OpenAiAnswer.py` and `utils/format_answer.py` files are not under
the sources verified here).  Per the spec it carries an optional text
content and an optional function call. -/
structure OpenAiAnswer where
  content : Option String
  function_call : Option FunctionCallInfo
deriving DecidableEq, Repr

/-- One stored chat turn, as consumed by `_get_chat_history`
(`chat.user_message` and `chat.assistant`). -/
structure ChatTurn where
  user_message : String
  assistant : String
deriving DecidableEq, Repr

/-- A function spec advertised to the model.  Both specs in the source also
carry the same constant empty-object parameter schema, which we omit since
it is identical for every call. -/
structure FunctionSpec where
  name : String
  description : String
deriving DecidableEq, Repr

/-- An observable effect of a `get_answer` run: an outbound model-completion
call (recording the messages and function specs sent), a read of the
history store, or a similarity-search read.  The source performs no other
collaborator interaction and no writes. -/
inductive Effect where
  | modelCall (messages : List Message) (functions : List FunctionSpec)
  | historyRead
  | contextRead
deriving DecidableEq, Repr

/-- The environment of external collaborators:
`history` is what `get_chat_history(chat_id)` returns (modelled from the
spec: an ordered sequence of turns), `similarity_search` is the vector
store's query function (modelled from the spec: query text to context text,
empty when retrieval yields nothing), and `respond` is the completion
client's behaviour as a function of the message list sent. -/
structure Env where
  history : List ChatTurn
  similarity_search : String → String
  respond : List Message → OpenAiAnswer

/-- `DEFAULT_MODEL` class constant. -/
def DEFAULT_MODEL : String := "gpt-3.5-turbo-0613"

/-- `DEFAULT_TEMPERATURE` class constant (float `0.0`, modelled exactly as
a rational). -/
def DEFAULT_TEMPERATURE : Rat := 0

/-- `DEFAULT_MAX_TOKENS` class constant. -/
def DEFAULT_MAX_TOKENS : Int := 256

/-- The configuration fields assigned by `__init__`.  The Supabase client,
embeddings client and OpenAI client handles are collaborator setup and are
not modelled. -/
structure Config where
  model : String
  temperature : Rat
  max_tokens : Int
  chat_id : String
  user_email : String
deriving DecidableEq, Repr

/-- `__init__`: `self.model = model or DEFAULT_MODEL`, and likewise for
temperature and max_tokens.  Python falsiness for a string is emptiness,
for a float/int it is being zero. -/
def initGenerator (model : String) (chat_id : String) (temperature : Rat)
    (max_tokens : Int) (user_email : String) : Config :=
  { model := if model = "" then DEFAULT_MODEL else model
    temperature := if temperature = 0 then DEFAULT_TEMPERATURE else temperature
    max_tokens := if max_tokens = 0 then DEFAULT_MAX_TOKENS else max_tokens
    chat_id := chat_id
    user_email := user_email }

/-- The per-turn pair produced inside `_get_chat_history`'s comprehension:
`[{"role": "user", ...}, {"role": "assistant", ...}]`. -/
def chatTurnMessages (chat : ChatTurn) : List Message :=
  [{ role := Role.user, content := chat.user_message },
   { role := Role.assistant, content := chat.assistant }]

/-- `_get_chat_history`: flatten the stored turns, in order, into
alternating user/assistant messages. -/
def getChatHistory (env : Env) : List Message :=
  env.history.flatMap chatTurnMessages

/-- `_get_context`: delegate to the vector store's similarity search with
the question as query. -/
def getContext (env : Env) (question : String) : String :=
  env.similarity_search question

/-- The fixed system identity message opening every prompt. -/
def identityMessage : Message :=
  { role := Role.system, content := "Your name is Quivr. You are a second brain..." }

/-- The system note appended before the flattened history. -/
def historyNoteMessage : Message :=
  { role := Role.system, content := "Previous messages are already in chat." }

/-- The context message built by `_construct_prompt` when `useContext`:
an f-string around the search result, falling back to the literal
`No document found` when the result is falsy (empty). -/
def contextMessage (env : Env) (question : String) : Message :=
  let chat_context := getContext env question
  { role := Role.user
    content := "Here is chat context: " ++
      (if chat_context = "" then "No document found" else chat_context) }

/-- `_construct_prompt`: start from the identity message, optionally append
the history note plus flattened history, optionally append the context
message, and always end with the user question.  The second component
records the collaborator reads this performs (a history read when
`useHistory`, then a context read when `useContext`). -/
def constructPrompt (env : Env) (question : String)
    (useContext : Bool) (useHistory : Bool) : List Message × List Effect :=
  let base := [identityMessage]
  let withHistory :=
    if useHistory then base ++ [historyNoteMessage] ++ getChatHistory env else base
  let withContext :=
    if useContext then withHistory ++ [contextMessage env question] else withHistory
  let historyEffects : List Effect := if useHistory then [Effect.historyRead] else []
  let contextEffects : List Effect := if useContext then [Effect.contextRead] else []
  (withContext ++ [{ role := Role.user, content := question }],
   historyEffects ++ contextEffects)

/-- The two fixed function specs advertised on every model call. -/
def functions : List FunctionSpec :=
  [{ name := "get_history"
     description := "Used to get the chat history between the user and the assistant" },
   { name := "get_context"
     description := "Used for retrieving documents related to the question to help answer the question" }]

/-- The guard `formatted_response.function_call and
formatted_response.function_call.name == fname`. -/
def callsFunction (r : OpenAiAnswer) (fname : String) : Bool :=
  match r.function_call with
  | some fc => fc.name == fname
  | none => false

/-- `get_answer`: first call on the bare prompt; if the response names
`get_history`, re-call with history; if the (possibly updated) response
names `get_context`, re-call with both context and history; return the
final content or the empty string.  Returns the answer together with the
ordered effect trace of the run. -/
def getAnswer (env : Env) (question : String) : String × List Effect :=
  let pe1 := constructPrompt env question false false
  let r1 := env.respond pe1.1
  let eff1 := pe1.2 ++ [Effect.modelCall pe1.1 functions]
  let step2 :=
    if callsFunction r1 "get_history" then
      let pe2 := constructPrompt env question false true
      (env.respond pe2.1, eff1 ++ pe2.2 ++ [Effect.modelCall pe2.1 functions])
    else (r1, eff1)
  let step3 :=
    if callsFunction step2.1 "get_context" then
      let pe3 := constructPrompt env question true true
      (env.respond pe3.1, step2.2 ++ pe3.2 ++ [Effect.modelCall pe3.1 functions])
    else step2
  (step3.1.content.getD "", step3.2)

/-- Number of model-completion calls recorded in an effect trace. -/
def countModelCalls : List Effect → Nat
  | [] => 0
  | Effect.modelCall _ _ :: rest => countModelCalls rest + 1
  | Effect.historyRead :: rest => countModelCalls rest
  | Effect.contextRead :: rest => countModelCalls rest

/-- Number of history-store reads recorded in an effect trace. -/
def countHistoryReads : List Effect → Nat
  | [] => 0
  | Effect.historyRead :: rest => countHistoryReads rest + 1
  | Effect.modelCall _ _ :: rest => countHistoryReads rest
  | Effect.contextRead :: rest => countHistoryReads rest

/-- Number of similarity-search reads recorded in an effect trace. -/
def countContextReads : List Effect → Nat
  | [] => 0
  | Effect.contextRead :: rest => countContextReads rest + 1
  | Effect.modelCall _ _ :: rest => countContextReads rest
  | Effect.historyRead :: rest => countContextReads rest

/-- The message lists of the model calls in a trace, in call order. -/
def modelCallMessages (effs : List Effect) : List (List Message) :=
  effs.filterMap fun e =>
    match e with
    | Effect.modelCall ms _ => some ms
    | Effect.historyRead => none
    | Effect.contextRead => none

/-! ### Basic facts about the guard and the four run shapes -/

lemma callsFunction_of_none (r : OpenAiAnswer) (hr : r.function_call = none)
    (n : String) : callsFunction r n = false := by
  simp [callsFunction, hr]

lemma callsFunction_of_name_ne (r : OpenAiAnswer) (fc : FunctionCallInfo)
    (n : String) (hr : r.function_call = some fc) (hn : ¬ fc.name = n) :
    callsFunction r n = false := by
  simp [callsFunction, hr, hn]

lemma name_of_callsFunction (r : OpenAiAnswer) (n : String)
    (h : callsFunction r n = true) :
    ∃ fc, r.function_call = some fc ∧ fc.name = n := by
  unfold callsFunction at h
  cases hr : r.function_call with
  | none => rw [hr] at h; exact absurd h (by simp)
  | some fc =>
    rw [hr] at h
    simp only [] at h
    exact ⟨fc, rfl, by simpa using h⟩

lemma history_not_context (r : OpenAiAnswer)
    (h : callsFunction r "get_history" = true) :
    callsFunction r "get_context" = false := by
  obtain ⟨fc, hr, hn⟩ := name_of_callsFunction r _ h
  exact callsFunction_of_name_ne r fc _ hr (by rw [hn]; decide)

lemma context_not_history (r : OpenAiAnswer)
    (h : callsFunction r "get_context" = true) :
    callsFunction r "get_history" = false := by
  obtain ⟨fc, hr, hn⟩ := name_of_callsFunction r _ h
  exact callsFunction_of_name_ne r fc _ hr (by rw [hn]; decide)

/-- Run shape: no escalation fires.  One call, on the bare prompt. -/
lemma getAnswer_shape_none (env : Env) (q : String)
    (h1 : callsFunction (env.respond (constructPrompt env q false false).1)
      "get_history" = false)
    (h2 : callsFunction (env.respond (constructPrompt env q false false).1)
      "get_context" = false) :
    getAnswer env q =
      ((env.respond (constructPrompt env q false false).1).content.getD "",
       [Effect.modelCall (constructPrompt env q false false).1 functions]) := by
  simp only [getAnswer, h1, Bool.false_eq_true, if_false]
  simp only [h2, Bool.false_eq_true, if_false]
  simp [constructPrompt]

/-- Run shape: the step-1 response names `get_context` directly.  Two calls,
the second with both flags on. -/
lemma getAnswer_shape_context (env : Env) (q : String)
    (h1 : callsFunction (env.respond (constructPrompt env q false false).1)
      "get_history" = false)
    (h2 : callsFunction (env.respond (constructPrompt env q false false).1)
      "get_context" = true) :
    getAnswer env q =
      ((env.respond (constructPrompt env q true true).1).content.getD "",
       [Effect.modelCall (constructPrompt env q false false).1 functions,
        Effect.historyRead, Effect.contextRead,
        Effect.modelCall (constructPrompt env q true true).1 functions]) := by
  simp only [getAnswer, h1, Bool.false_eq_true, if_false]
  simp only [h2, if_true]
  simp [constructPrompt]

/-- Run shape: step 1 names `get_history`, the step-2 response does not name
`get_context`.  Two calls, the second with history only. -/
lemma getAnswer_shape_history (env : Env) (q : String)
    (h1 : callsFunction (env.respond (constructPrompt env q false false).1)
      "get_history" = true)
    (h2 : callsFunction (env.respond (constructPrompt env q false true).1)
      "get_context" = false) :
    getAnswer env q =
      ((env.respond (constructPrompt env q false true).1).content.getD "",
       [Effect.modelCall (constructPrompt env q false false).1 functions,
        Effect.historyRead,
        Effect.modelCall (constructPrompt env q false true).1 functions]) := by
  simp only [getAnswer, h1, if_true]
  simp only [h2, Bool.false_eq_true, if_false]
  simp [constructPrompt]

/-- Run shape: step 1 names `get_history` and the step-2 response names
`get_context`.  Three calls, with history fetched twice. -/
lemma getAnswer_shape_history_context (env : Env) (q : String)
    (h1 : callsFunction (env.respond (constructPrompt env q false false).1)
      "get_history" = true)
    (h2 : callsFunction (env.respond (constructPrompt env q false true).1)
      "get_context" = true) :
    getAnswer env q =
      ((env.respond (constructPrompt env q true true).1).content.getD "",
       [Effect.modelCall (constructPrompt env q false false).1 functions,
        Effect.historyRead,
        Effect.modelCall (constructPrompt env q false true).1 functions,
        Effect.historyRead, Effect.contextRead,
        Effect.modelCall (constructPrompt env q true true).1 functions]) := by
  simp only [getAnswer, h1, if_true]
  simp only [h2, if_true]
  simp [constructPrompt]

/-! ### Claim theorems -/

/-- C1: when the first model response carries content and no function call,
`get_answer` returns that content verbatim and exactly one model-completion
call is issued. -/
theorem direct_content_one_call (env : Env) (q c : String)
    (h : env.respond (constructPrompt env q false false).1 =
      { content := some c, function_call := none }) :
    (getAnswer env q).1 = c ∧ countModelCalls (getAnswer env q).2 = 1 := by
  have h1 : callsFunction (env.respond (constructPrompt env q false false).1)
      "get_history" = false := callsFunction_of_none _ (by rw [h]) _
  have h2 : callsFunction (env.respond (constructPrompt env q false false).1)
      "get_context" = false := callsFunction_of_none _ (by rw [h]) _
  rw [getAnswer_shape_none env q h1 h2]
  exact ⟨by simp [h], rfl⟩

/-- Environment for the C1 witness: the model always answers directly. -/
def envDirect : Env :=
  { history := []
    similarity_search := fun _ => ""
    respond := fun _ => { content := some "4", function_call := none } }

/-- C1 witness: the end-to-end scenario question returning content `4` in
one call. -/
theorem direct_content_one_call_wit :
    (getAnswer envDirect "What is 2+2?").1 = "4" ∧
    countModelCalls (getAnswer envDirect "What is 2+2?").2 = 1 :=
  direct_content_one_call envDirect "What is 2+2?" "4" rfl

/-- C4: every run of `get_answer` issues between one and three
model-completion calls. -/
theorem between_one_and_three_calls (env : Env) (q : String) :
    1 ≤ countModelCalls (getAnswer env q).2 ∧
    countModelCalls (getAnswer env q).2 ≤ 3 := by
  cases h1 : callsFunction (env.respond (constructPrompt env q false false).1)
      "get_history" with
  | false =>
    cases h2 : callsFunction (env.respond (constructPrompt env q false false).1)
        "get_context" with
    | false => rw [getAnswer_shape_none env q h1 h2]; simp [countModelCalls]
    | true => rw [getAnswer_shape_context env q h1 h2]; simp [countModelCalls]
  | true =>
    cases h2 : callsFunction (env.respond (constructPrompt env q false true).1)
        "get_context" with
    | false => rw [getAnswer_shape_history env q h1 h2]; simp [countModelCalls]
    | true => rw [getAnswer_shape_history_context env q h1 h2]; simp [countModelCalls]

/-- C5: at construction each of model, temperature and max_tokens falls
back to its default exactly when the supplied value is falsy, and is kept
otherwise. -/
theorem init_applies_defaults_on_falsy (model chat_id : String)
    (temperature : Rat) (max_tokens : Int) (user_email : String) :
    ((model = "" →
        (initGenerator model chat_id temperature max_tokens user_email).model =
          "gpt-3.5-turbo-0613") ∧
     (¬ model = "" →
        (initGenerator model chat_id temperature max_tokens user_email).model =
          model)) ∧
    ((temperature = 0 →
        (initGenerator model chat_id temperature max_tokens user_email).temperature =
          0) ∧
     (¬ temperature = 0 →
        (initGenerator model chat_id temperature max_tokens user_email).temperature =
          temperature)) ∧
    ((max_tokens = 0 →
        (initGenerator model chat_id temperature max_tokens user_email).max_tokens =
          256) ∧
     (¬ max_tokens = 0 →
        (initGenerator model chat_id temperature max_tokens user_email).max_tokens =
          max_tokens)) := by
  refine ⟨⟨?_, ?_⟩, ⟨?_, ?_⟩, ⟨?_, ?_⟩⟩ <;> intro h <;>
    simp [initGenerator, h, DEFAULT_MODEL, DEFAULT_TEMPERATURE, DEFAULT_MAX_TOKENS]

/-- C5 witness: all-falsy construction yields the three documented
defaults. -/
theorem init_applies_defaults_on_falsy_wit :
    (initGenerator "" "chat" 0 0 "user").model = "gpt-3.5-turbo-0613" ∧
    (initGenerator "" "chat" 0 0 "user").temperature = 0 ∧
    (initGenerator "" "chat" 0 0 "user").max_tokens = 256 :=
  ⟨(init_applies_defaults_on_falsy "" "chat" 0 0 "user").1.1 rfl,
   (init_applies_defaults_on_falsy "" "chat" 0 0 "user").2.1.1 rfl,
   (init_applies_defaults_on_falsy "" "chat" 0 0 "user").2.2.1 rfl⟩

/-- C6: a response whose function call names anything other than
`get_history` or `get_context` triggers no further model call, and
`get_answer` returns that response's content (empty string when absent).
Stated for both positions where an escalation could otherwise fire: the
step-1 response, and the step-2 response after a history escalation. -/
theorem unknown_function_ignored (env : Env) (q : String) :
    ((∃ fc, (env.respond (constructPrompt env q false false).1).function_call =
          some fc ∧ ¬ fc.name = "get_history" ∧ ¬ fc.name = "get_context") →
      countModelCalls (getAnswer env q).2 = 1 ∧
      (getAnswer env q).1 =
        (env.respond (constructPrompt env q false false).1).content.getD "") ∧
    (callsFunction (env.respond (constructPrompt env q false false).1)
        "get_history" = true →
      (∃ fc, (env.respond (constructPrompt env q false true).1).function_call =
          some fc ∧ ¬ fc.name = "get_history" ∧ ¬ fc.name = "get_context") →
      countModelCalls (getAnswer env q).2 = 2 ∧
      (getAnswer env q).1 =
        (env.respond (constructPrompt env q false true).1).content.getD "") := by
  constructor
  · rintro ⟨fc, hr, hn1, hn2⟩
    have h1 := callsFunction_of_name_ne _ fc _ hr hn1
    have h2 := callsFunction_of_name_ne _ fc _ hr hn2
    rw [getAnswer_shape_none env q h1 h2]
    exact ⟨rfl, rfl⟩
  · rintro h1 ⟨fc, hr, hn1, hn2⟩
    have h2 := callsFunction_of_name_ne _ fc _ hr hn2
    rw [getAnswer_shape_history env q h1 h2]
    exact ⟨rfl, rfl⟩

/-- Environment for the C6 witness: the model always names an unrecognized
function while also carrying content. -/
def envUnknown : Env :=
  { history := []
    similarity_search := fun _ => ""
    respond := fun _ =>
      { content := some "ok", function_call := some { name := "get_weather" } } }

/-- C6 witness: an unrecognized function name leaves a single call and the
step-1 content is returned. -/
theorem unknown_function_ignored_wit :
    countModelCalls (getAnswer envUnknown "q").2 = 1 ∧
    (getAnswer envUnknown "q").1 =
      (envUnknown.respond (constructPrompt envUnknown "q" false false).1).content.getD "" :=
  (unknown_function_ignored envUnknown "q").1
    ⟨{ name := "get_weather" }, rfl, by decide, by decide⟩

/-- C10: the `get_history` escalation fires at most once per run: when the
step-2 response (obtained after the history escalation) itself names
`get_history` again, no third model call is made and its content is
returned. -/
theorem history_escalation_at_most_once (env : Env) (q : String)
    (h1 : callsFunction (env.respond (constructPrompt env q false false).1)
      "get_history" = true) :
    (callsFunction (env.respond (constructPrompt env q false true).1)
        "get_history" = true →
      countModelCalls (getAnswer env q).2 = 2 ∧
      (getAnswer env q).1 =
        (env.respond (constructPrompt env q false true).1).content.getD "") ∧
    (countModelCalls (getAnswer env q).2 = 3 →
      callsFunction (env.respond (constructPrompt env q false true).1)
        "get_context" = true) := by
  constructor
  · intro h2
    have h2' := history_not_context _ h2
    rw [getAnswer_shape_history env q h1 h2']
    exact ⟨rfl, rfl⟩
  · intro h3
    by_contra hc
    rw [Bool.not_eq_true] at hc
    rw [getAnswer_shape_history env q h1 hc] at h3
    simp [countModelCalls] at h3

/-- Environment for the C10 witness: the model asks for history on every
call. -/
def envLoop : Env :=
  { history := []
    similarity_search := fun _ => ""
    respond := fun _ =>
      { content := none, function_call := some { name := "get_history" } } }

/-- C10 witness: a model that keeps asking for history still gets exactly
two calls and an empty answer. -/
theorem history_escalation_at_most_once_wit :
    countModelCalls (getAnswer envLoop "q").2 = 2 ∧
    (getAnswer envLoop "q").1 =
      (envLoop.respond (constructPrompt envLoop "q" false true).1).content.getD "" :=
  (history_escalation_at_most_once envLoop "q" (by decide)).1 (by decide)

/-- C8: `get_answer` is deterministic in the collaborators: equal history,
equal similarity-search behaviour and equal model behaviour yield the same
answer and the same effect trace, message sequences included. -/
theorem getAnswer_deterministic (env1 env2 : Env) (q : String)
    (hh : env1.history = env2.history)
    (hs : ∀ s, env1.similarity_search s = env2.similarity_search s)
    (hr : ∀ ms, env1.respond ms = env2.respond ms) :
    getAnswer env1 q = getAnswer env2 q := by
  have hcp : ∀ c h : Bool, constructPrompt env1 q c h = constructPrompt env2 q c h := by
    intro c h
    simp [constructPrompt, getChatHistory, contextMessage, getContext, hh, hs q]
  simp only [getAnswer, hcp, hr]

/-- First environment for the C8 witness. -/
def envTwinA : Env :=
  { history := [{ user_message := "hi", assistant := "hello" }]
    similarity_search := fun _ => ""
    respond := fun _ => { content := some "ok", function_call := none } }

/-- Second environment for the C8 witness: written separately but with the
same collaborator behaviour as `envTwinA`. -/
def envTwinB : Env :=
  { history := [{ user_message := "hi", assistant := "hello" }]
    similarity_search := fun _ => ""
    respond := fun _ => { content := some "ok", function_call := none } }

/-- C8 witness: two runs against behaviourally equal collaborators agree. -/
theorem getAnswer_deterministic_wit :
    getAnswer envTwinA "q" = getAnswer envTwinB "q" :=
  getAnswer_deterministic envTwinA envTwinB "q" rfl (fun _ => rfl) (fun _ => rfl)

/-- C9: for every flag combination, the constructed prompt opens with the
fixed identity message, closes with the user question as its last element
with role user, and any history or context messages sit strictly between
the two. -/
theorem prompt_shape (env : Env) (q : String) (useContext useHistory : Bool) :
    ∃ mid, (constructPrompt env q useContext useHistory).1 =
        identityMessage :: (mid ++ [{ role := Role.user, content := q }]) ∧
      (useHistory = true → List.IsInfix (getChatHistory env) mid) ∧
      (useContext = true → contextMessage env q ∈ mid) := by
  cases useContext with
  | false =>
    cases useHistory with
    | false =>
      refine ⟨[], by simp [constructPrompt], ?_, ?_⟩ <;>
        exact fun h => absurd h (by simp)
    | true =>
      refine ⟨historyNoteMessage :: getChatHistory env,
        by simp [constructPrompt], ?_, ?_⟩
      · exact fun _ => ⟨[historyNoteMessage], [], by simp⟩
      · exact fun h => absurd h (by simp)
  | true =>
    cases useHistory with
    | false =>
      refine ⟨[contextMessage env q], by simp [constructPrompt], ?_, ?_⟩
      · exact fun h => absurd h (by simp)
      · exact fun _ => by simp
    | true =>
      refine ⟨historyNoteMessage :: (getChatHistory env ++ [contextMessage env q]),
        by simp [constructPrompt], ?_, ?_⟩
      · exact fun _ => ⟨[historyNoteMessage], [contextMessage env q], by simp⟩
      · exact fun _ => by simp

/-- Environment for the C9 witness. -/
def envShape : Env :=
  { history := [{ user_message := "a", assistant := "b" }]
    similarity_search := fun _ => "doc"
    respond := fun _ => { content := some "ok", function_call := none } }

/-- C9 witness: the prompt shape instantiated with both flags on. -/
theorem prompt_shape_wit :
    ∃ mid, (constructPrompt envShape "q" true true).1 =
        identityMessage :: (mid ++ [{ role := Role.user, content := "q" }]) ∧
      (true = true → List.IsInfix (getChatHistory envShape) mid) ∧
      (true = true → contextMessage envShape "q" ∈ mid) :=
  prompt_shape envShape "q" true true

/-- Indexing into the flattened history (with any tail appended): entry
`2*i` is the user message of turn `i` and entry `2*i+1` its assistant
message, so the flattening is chronological with alternating roles. -/
lemma flatMap_chatTurn_getElem (l : List ChatTurn) (rest : List Message) :
    ∀ (i : Nat) (c : ChatTurn), l[i]? = some c →
      (l.flatMap chatTurnMessages ++ rest)[2 * i]? =
        some { role := Role.user, content := c.user_message } ∧
      (l.flatMap chatTurnMessages ++ rest)[2 * i + 1]? =
        some { role := Role.assistant, content := c.assistant } := by
  induction l with
  | nil => intro i c hc; simp at hc
  | cons hd tl ih =>
    intro i c hc
    cases i with
    | zero =>
      simp only [List.getElem?_cons_zero, Option.some.injEq] at hc
      subst hc
      simp [chatTurnMessages]
    | succ j =>
      have hj : tl[j]? = some c := by simpa using hc
      have e1 : 2 * (j + 1) = 2 * j + 1 + 1 := by ring
      have e2 : 2 * (j + 1) + 1 = 2 * j + 1 + 1 + 1 := by ring
      rw [e2, e1]
      simp only [List.flatMap_cons, chatTurnMessages, List.cons_append,
        List.append_assoc, List.getElem?_cons_succ]
      exact ih j c hj

/-- Environment where the step-1 response asks for history and the step-2
response asks for context: the bare prompt has two messages, the
history-augmented one (empty history) has three, the full one has four. -/
def envEsc : Env :=
  { history := []
    similarity_search := fun _ => ""
    respond := fun ms =>
      if ms.length == 2 then
        { content := none, function_call := some { name := "get_history" } }
      else if ms.length == 3 then
        { content := none, function_call := some { name := "get_context" } }
      else { content := some "ok", function_call := none } }

/-- C3 counterexample: a step-1 response naming `get_history` does not
force exactly two model calls — when the step-2 response names
`get_context` a third call is made. -/
theorem history_two_calls_cex :
    callsFunction (envEsc.respond (constructPrompt envEsc "q" false false).1)
      "get_history" = true ∧
    ¬ countModelCalls (getAnswer envEsc "q").2 = 2 ∧
    countModelCalls (getAnswer envEsc "q").2 = 3 := by decide

/-- C3 (amended): when the step-1 response names `get_history` and the
step-2 response does not name `get_context`, exactly two model calls
occur; the second call's message list is the history-augmented prompt,
which carries the flattened chat history in original chronological order
with alternating user/assistant roles (turn `i` occupies positions
`2+2*i` and `2+2*i+1`). -/
theorem history_two_calls_when_no_context (env : Env) (q : String)
    (h1 : callsFunction (env.respond (constructPrompt env q false false).1)
      "get_history" = true)
    (h2 : callsFunction (env.respond (constructPrompt env q false true).1)
      "get_context" = false) :
    countModelCalls (getAnswer env q).2 = 2 ∧
    modelCallMessages (getAnswer env q).2 =
      [(constructPrompt env q false false).1, (constructPrompt env q false true).1] ∧
    (constructPrompt env q false true).1 =
      identityMessage :: historyNoteMessage ::
        (getChatHistory env ++ [{ role := Role.user, content := q }]) ∧
    (∀ (i : Nat) (c : ChatTurn), env.history[i]? = some c →
      (constructPrompt env q false true).1[2 + 2 * i]? =
        some { role := Role.user, content := c.user_message } ∧
      (constructPrompt env q false true).1[2 + 2 * i + 1]? =
        some { role := Role.assistant, content := c.assistant }) := by
  rw [getAnswer_shape_history env q h1 h2]
  refine ⟨rfl, rfl, by simp [constructPrompt], ?_⟩
  intro i c hc
  have key := flatMap_chatTurn_getElem env.history
    [{ role := Role.user, content := q }] i c hc
  have hform : (constructPrompt env q false true).1 =
      identityMessage :: historyNoteMessage ::
        (env.history.flatMap chatTurnMessages ++
          [{ role := Role.user, content := q }]) := by
    simp [constructPrompt, getChatHistory]
  rw [hform]
  have e1 : 2 + 2 * i = 2 * i + 1 + 1 := by ring
  have e2 : 2 + 2 * i + 1 = 2 * i + 1 + 1 + 1 := by ring
  rw [e2, e1]
  simp only [List.getElem?_cons_succ]
  exact key

/-- Environment for the C3 witness: one stored turn, the model asks for
history on the bare prompt and then answers. -/
def envHist : Env :=
  { history := [{ user_message := "What did I ask before?"
                  assistant := "You asked about cats." }]
    similarity_search := fun _ => ""
    respond := fun ms =>
      if ms.length == 2 then
        { content := none, function_call := some { name := "get_history" } }
      else { content := some "You asked about cats.", function_call := none } }

/-- C3 witness: the history scenario with no further escalation makes
exactly two calls. -/
theorem history_two_calls_when_no_context_wit :
    countModelCalls (getAnswer envHist "What did I ask before?").2 = 2 :=
  (history_two_calls_when_no_context envHist "What did I ask before?"
    (by decide) (by decide)).1

/-- C2: whenever the checked response names `get_context` — directly from
step 1, or from step 2 after a `get_history` escalation — the final model
call's message list is the fully augmented prompt, carrying both the
flattened chat history and the context message; and when the similarity
search returns the empty result the context message carries the literal
`No document found` marker. -/
theorem context_includes_history_and_marker (env : Env) (q : String)
    (h : callsFunction (env.respond (constructPrompt env q false false).1)
        "get_context" = true ∨
      (callsFunction (env.respond (constructPrompt env q false false).1)
          "get_history" = true ∧
        callsFunction (env.respond (constructPrompt env q false true).1)
          "get_context" = true)) :
    (modelCallMessages (getAnswer env q).2).getLast? =
      some (identityMessage :: historyNoteMessage ::
        (getChatHistory env ++
          [contextMessage env q, { role := Role.user, content := q }])) ∧
    (env.similarity_search q = "" →
      contextMessage env q =
        { role := Role.user, content := "Here is chat context: No document found" }) := by
  constructor
  · rcases h with h2 | ⟨h1, h2⟩
    · have h1 := context_not_history _ h2
      rw [getAnswer_shape_context env q h1 h2]
      simp [modelCallMessages, constructPrompt]
    · rw [getAnswer_shape_history_context env q h1 h2]
      simp [modelCallMessages, constructPrompt]
  · intro hs
    simp [contextMessage, getContext, hs]

/-- Environment for the C2 witness: the step-1 response goes straight to
`get_context`, and retrieval yields nothing. -/
def envCtx : Env :=
  { history := []
    similarity_search := fun _ => ""
    respond := fun ms =>
      if ms.length == 2 then
        { content := none, function_call := some { name := "get_context" } }
      else { content := some "ok", function_call := none } }

/-- C2 witness: direct context escalation with empty retrieval. -/
theorem context_includes_history_and_marker_wit :
    (modelCallMessages (getAnswer envCtx "q").2).getLast? =
      some (identityMessage :: historyNoteMessage ::
        (getChatHistory envCtx ++
          [contextMessage envCtx "q", { role := Role.user, content := "q" }])) ∧
    (envCtx.similarity_search "q" = "" →
      contextMessage envCtx "q" =
        { role := Role.user, content := "Here is chat context: No document found" }) :=
  context_includes_history_and_marker envCtx "q" (Or.inl (by decide))

/-- Every effect is a model call, a history read or a context read. -/
lemma effect_cases (e : Effect) :
    (∃ ms fns, e = Effect.modelCall ms fns) ∨ e = Effect.historyRead ∨
      e = Effect.contextRead := by
  cases e with
  | modelCall ms fns => exact Or.inl ⟨ms, fns, rfl⟩
  | historyRead => exact Or.inr (Or.inl rfl)
  | contextRead => exact Or.inr (Or.inr rfl)

/-- C7 counterexample: the run in which step 1 names `get_history` and
step 2 names `get_context` reads the history store twice (once for the
second prompt, once more for the third), refuting "at most one read of
the history store". -/
theorem single_history_read_cex :
    countHistoryReads (getAnswer envEsc "q").2 = 2 ∧
    ¬ countHistoryReads (getAnswer envEsc "q").2 ≤ 1 := by decide

/-- C7 (amended): every run performs between one and three model calls, at
most two history-store reads (the second prompt build and the third prompt
build each fetch history), at most one similarity-search read, and every
recorded effect is one of those three read/call kinds — no writes. -/
theorem effects_bounds (env : Env) (q : String) :
    1 ≤ countModelCalls (getAnswer env q).2 ∧
    countModelCalls (getAnswer env q).2 ≤ 3 ∧
    countHistoryReads (getAnswer env q).2 ≤ 2 ∧
    countContextReads (getAnswer env q).2 ≤ 1 ∧
    ∀ e ∈ (getAnswer env q).2,
      (∃ ms fns, e = Effect.modelCall ms fns) ∨ e = Effect.historyRead ∨
        e = Effect.contextRead := by
  have hlast : ∀ e ∈ (getAnswer env q).2,
      (∃ ms fns, e = Effect.modelCall ms fns) ∨ e = Effect.historyRead ∨
        e = Effect.contextRead := fun e _ => effect_cases e
  cases h1 : callsFunction (env.respond (constructPrompt env q false false).1)
      "get_history" with
  | false =>
    cases h2 : callsFunction (env.respond (constructPrompt env q false false).1)
        "get_context" with
    | false =>
      rw [getAnswer_shape_none env q h1 h2] at hlast ⊢
      exact ⟨by norm_num [countModelCalls], by norm_num [countModelCalls],
        by norm_num [countHistoryReads], by norm_num [countContextReads], hlast⟩
    | true =>
      rw [getAnswer_shape_context env q h1 h2] at hlast ⊢
      exact ⟨by norm_num [countModelCalls], by norm_num [countModelCalls],
        by norm_num [countHistoryReads], by norm_num [countContextReads], hlast⟩
  | true =>
    cases h2 : callsFunction (env.respond (constructPrompt env q false true).1)
        "get_context" with
    | false =>
      rw [getAnswer_shape_history env q h1 h2] at hlast ⊢
      exact ⟨by norm_num [countModelCalls], by norm_num [countModelCalls],
        by norm_num [countHistoryReads], by norm_num [countContextReads], hlast⟩
    | true =>
      rw [getAnswer_shape_history_context env q h1 h2] at hlast ⊢
      exact ⟨by norm_num [countModelCalls], by norm_num [countModelCalls],
        by norm_num [countHistoryReads], by norm_num [countContextReads], hlast⟩

end Quivr
